/-
Verification development for the aws-strand-streamlit video-ad pipeline.

The repository chains cloud AI services into a five-stage pipeline
(strategy, image, video job, voiceover, merge).  This file gives a shallow
embedding of the repository's own control flow and string manipulation:
  - Python str.split(sep) / sep.join(parts) on storage locators,
  - the 512-character video-prompt clipping,
  - the strategy generator's extract-parse-validate-fallback logic,
  - the video job runner's fixed-interval poll loop,
  - the merge stage's duration-alignment policy and temp-file cleanup,
  - the two pipeline drivers' result accumulation,
  - the storage-key generation of the enhanced and auto variants.
External services (bedrock, polly, s3, moviepy, json.loads) are modelled as
oracle parameters: the embedded functions are the repository's code around
those calls.
-/
import Mathlib

namespace VideoAd

/-! ### Python string primitives

`pySplit` models Python `s.split(sep)` with an explicit one-character
separator: empty fields are kept, and splitting the empty string yields one
empty field.  `pyJoin` models `sep.join(parts)`. -/

def pySplit (sep : Char) : List Char → List (List Char)
  | [] => [[]]
  | c :: cs =>
    if c = sep then [] :: pySplit sep cs
    else (c :: (pySplit sep cs).headI) :: (pySplit sep cs).tail

def pyJoin (sep : Char) : List (List Char) → List Char
  | [] => []
  | [x] => x
  | x :: y :: t => x ++ sep :: pyJoin sep (y :: t)

theorem pySplit_ne_nil (sep : Char) (s : List Char) : pySplit sep s ≠ [] := by
  cases s with
  | nil => simp [pySplit]
  | cons c cs =>
    simp only [pySplit]
    by_cases h : c = sep <;> simp [h]

theorem pySplit_sep_cons (sep : Char) (rest : List Char) :
    pySplit sep (sep :: rest) = [] :: pySplit sep rest := by
  simp [pySplit]

theorem pySplit_append_sep (sep : Char) (a rest : List Char) (h : sep ∉ a) :
    pySplit sep (a ++ sep :: rest) = a :: pySplit sep rest := by
  induction a with
  | nil => simp [pySplit_sep_cons]
  | cons x a ih =>
    have hx : x ≠ sep := by
      intro hx; exact h (hx ▸ List.mem_cons_self x a)
    have ha : sep ∉ a := fun hmem => h (List.mem_cons_of_mem x hmem)
    rw [List.cons_append]
    simp only [pySplit, hx, if_false]
    rw [ih ha]
    simp

theorem pyJoin_pySplit (sep : Char) (s : List Char) :
    pyJoin sep (pySplit sep s) = s := by
  induction s with
  | nil => simp [pySplit, pyJoin]
  | cons c cs ih =>
    obtain ⟨h, t, hR⟩ := List.exists_cons_of_ne_nil (pySplit_ne_nil sep cs)
    by_cases hc : c = sep
    · subst hc
      rw [pySplit_sep_cons]
      rw [hR] at ih ⊢
      simpa [pyJoin] using ih
    · simp only [pySplit, hc, if_false, hR, List.headI, List.tail]
      cases t with
      | nil =>
        rw [hR] at ih
        simp only [pyJoin] at ih ⊢
        simp [ih]
      | cons y t =>
        rw [hR] at ih
        simp only [pyJoin] at ih ⊢
        simp [ih]

/-! ### Storage locator formatting and parsing

Locators are built with the f-string `"s3://" + bucket + "/" + key` and
parsed at every stage boundary as `path.split('/')[2]` for the bucket and
`'/'.join(path.split('/')[3:])` for the key
(enhanced_tools.py lines 171, 198-199, 363-370; simple_video_ad.py 100-101). -/

def s3Locator (bucket key : List Char) : List Char :=
  's' :: '3' :: ':' :: '/' :: '/' :: (bucket ++ '/' :: key)

def parseBucket (s : List Char) : Option (List Char) :=
  (pySplit '/' s).get? 2

def parseKey (s : List Char) : List Char :=
  pyJoin '/' ((pySplit '/' s).drop 3)

theorem pySplit_s3Locator (b k : List Char) (hb : '/' ∉ b) :
    pySplit '/' (s3Locator b k) =
      ['s', '3', ':'] :: [] :: b :: pySplit '/' k := by
  have h1 : s3Locator b k = ['s', '3', ':'] ++ '/' :: ('/' :: (b ++ '/' :: k)) := by
    simp [s3Locator]
  rw [h1, pySplit_append_sep '/' ['s', '3', ':'] _ (by decide),
      pySplit_sep_cons, pySplit_append_sep '/' b k hb]

/-- C10: parsing a storage locator by splitting on '/' is a left inverse of
locator formatting: for any bucket containing no '/' and any non-empty key,
element 2 of the split recovers the bucket and rejoining the elements from
index 3 recovers the key, so a reference produced by one stage resolves to
the same bucket and key it was stored under. -/
theorem locator_parse_roundtrip (b k : List Char) (hb : '/' ∉ b) (hk : k ≠ []) :
    parseBucket (s3Locator b k) = some b ∧ parseKey (s3Locator b k) = k := by
  constructor
  · rw [parseBucket, pySplit_s3Locator b k hb]
    rfl
  · rw [parseKey, pySplit_s3Locator b k hb]
    simpa using pyJoin_pySplit '/' k

/-- Witness for C10 at bucket "bkt" and key "a/v.mp4" (the key itself
contains a '/', as real object keys in this repository do). -/
theorem locator_parse_roundtrip_witness :
    parseBucket (s3Locator ['b', 'k', 't'] ['a', '/', 'v', '.', 'm', 'p', '4']) =
        some ['b', 'k', 't'] ∧
      parseKey (s3Locator ['b', 'k', 't'] ['a', '/', 'v', '.', 'm', 'p', '4']) =
        ['a', '/', 'v', '.', 'm', 'p', '4'] :=
  locator_parse_roundtrip ['b', 'k', 't'] ['a', '/', 'v', '.', 'm', 'p', '4']
    (by decide) (by decide)

/-! ### Video prompt clipping

Models `video_prompt[:512] if len(video_prompt) > 512 else video_prompt`
(enhanced_tools.py line 218; simple_video_ad.py line 108). -/

def truncated_prompt (p : List Char) : List Char :=
  if p.length > 512 then p.take 512 else p

/-- C5: a video prompt longer than 512 characters is clipped to exactly its
first 512 characters before submission; a prompt of at most 512 characters
is passed through unchanged. -/
theorem truncated_prompt_spec (p : List Char) :
    (p.length ≤ 512 → truncated_prompt p = p) ∧
      (512 < p.length →
        truncated_prompt p = p.take 512 ∧ (truncated_prompt p).length = 512) := by
  constructor
  · intro h
    simp [truncated_prompt, Nat.not_lt.mpr h]
  · intro h
    have hif : truncated_prompt p = p.take 512 := by
      simp [truncated_prompt, h]
    refine ⟨hif, ?_⟩
    rw [hif, List.length_take]
    omega

/-- Witness for C5: a 600-character prompt is clipped to length 512 and a
2-character prompt passes through unchanged. -/
theorem truncated_prompt_witness :
    (truncated_prompt (List.replicate 600 'a')).length = 512 ∧
      truncated_prompt ['h', 'i'] = ['h', 'i'] :=
  ⟨((truncated_prompt_spec (List.replicate 600 'a')).2
      (by rw [List.length_replicate]; omega)).2,
    (truncated_prompt_spec ['h', 'i']).1 (by decide)⟩

/-! ### Merge stage duration policy

Models the audio-alignment arithmetic of `merge_video_and_audio`
(enhanced_tools.py lines 379-390).  Durations are rationals; for positive
durations Python `int(v / a)` is the floor.  `subclip(0, t)` yields a clip of
duration `t` (never more than the source clip); `[audio_clip] * n` followed by
`concatenate_audioclips` yields a clip of duration `n * a`; `set_audio` keeps
the video clip's own duration. -/

def subclipDuration (clipDur t : ℚ) : ℚ :=
  min t clipDur

def concatenatedDuration (n : ℕ) (clipDur : ℚ) : ℚ :=
  (List.replicate n clipDur).sum

def loops_needed (videoDur audioDur : ℚ) : ℤ :=
  Int.floor (videoDur / audioDur) + 1

def adjustedAudioDuration (videoDur audioDur : ℚ) : ℚ :=
  if audioDur > videoDur then
    subclipDuration audioDur videoDur
  else if audioDur < videoDur then
    subclipDuration
      (concatenatedDuration (loops_needed videoDur audioDur).toNat audioDur)
      videoDur
  else audioDur

def mergedOutputDuration (videoDur audioDur : ℚ) : ℚ :=
  videoDur

theorem concatenatedDuration_eq (n : ℕ) (d : ℚ) :
    concatenatedDuration n d = (n : ℚ) * d := by
  simp [concatenatedDuration, List.sum_replicate, nsmul_eq_mul]

/-! The auto_video_ad merge step (auto_video_ad.py lines 143-147) instead
computes `min_duration = min(video_clip.duration, audio_clip.duration)` and
trims BOTH the video and the audio to that length
(`video_trimmed = video_clip.subclipped(0, min_duration)`), so its output
duration is the minimum of the two, not the video's duration. -/

def autoMinDuration (videoDur audioDur : ℚ) : ℚ :=
  min videoDur audioDur

def autoMergeOutputDuration (videoDur audioDur : ℚ) : ℚ :=
  subclipDuration videoDur (autoMinDuration videoDur audioDur)

/-- C3 counterexample: at the spec's own example point (video 6.0s, audio
2.5s) the auto_video_ad merge step produces an output of duration 2.5s, not
6.0s: it trims the video down to the shorter audio instead of looping the
audio, so the output duration does not equal the source video duration. -/
theorem auto_merge_min_duration_counterexample :
    autoMergeOutputDuration 6 (5 / 2) = 5 / 2 ∧ (5 / 2 : ℚ) ≠ 6 := by
  constructor
  · norm_num [autoMergeOutputDuration, autoMinDuration, subclipDuration]
  · norm_num

/-- C3 amended: in `merge_video_and_audio` (enhanced_tools.py) the claimed
policy holds: for a video of positive duration V and audio of positive
duration A, longer audio is truncated to V, shorter audio is looped enough
times to strictly exceed V before truncating, and the adjusted audio duration
and merged output duration equal V; the auto_video_ad merge step deviates,
trimming both streams to min(V, A). -/
theorem merge_duration_policy (V A : ℚ) (hV : 0 < V) (hA : 0 < A) :
    adjustedAudioDuration V A = V ∧
      (A < V →
        V < concatenatedDuration (loops_needed V A).toNat A) ∧
      mergedOutputDuration V A = V := by
  have hfloor : (0 : ℤ) ≤ Int.floor (V / A) :=
    Int.floor_nonneg.mpr (by positivity)
  have hcast : ((loops_needed V A).toNat : ℚ) = (Int.floor (V / A) : ℚ) + 1 := by
    rw [loops_needed]
    have h2 : (0 : ℤ) ≤ Int.floor (V / A) + 1 := by omega
    exact_mod_cast congrArg (Int.cast : ℤ → ℚ) (Int.toNat_of_nonneg h2)
  have hexceed : A < V → V < concatenatedDuration (loops_needed V A).toNat A := by
    intro _
    rw [concatenatedDuration_eq, hcast]
    have h1 : V / A < (Int.floor (V / A) : ℚ) + 1 := Int.lt_floor_add_one _
    calc V = V / A * A := by field_simp
      _ < ((Int.floor (V / A) : ℚ) + 1) * A := mul_lt_mul_of_pos_right h1 hA
  refine ⟨?_, hexceed, rfl⟩
  unfold adjustedAudioDuration
  by_cases h1 : A > V
  · simp [h1, subclipDuration, min_eq_left (le_of_lt h1)]
  · by_cases h2 : A < V
    · have hge := le_of_lt (hexceed h2)
      simp [h1, h2, subclipDuration, min_eq_left hge]
    · have heq : A = V := by linarith [not_lt.mp h1, not_lt.mp h2]
      simp [h1, h2, heq]

/-- Witness for C3 at the spec's example: video 6.0s, audio 2.5s gives an
adjusted audio duration of exactly 6.0s (looped 3 times to 7.5s, then
truncated). -/
theorem merge_duration_policy_witness :
    adjustedAudioDuration 6 (5 / 2) = 6 :=
  (merge_duration_policy 6 (5 / 2) (by norm_num) (by norm_num)).1

/-! ### Merge stage temp-file control flow

Models the exception flow of `merge_video_and_audio`
(enhanced_tools.py lines 357-434).  Each fallible external operation is an
oracle `Except` value; the second component of the result is the set of local
temporary files still on disk when the invocation finishes.  The two download
temporaries are created (with `delete=False`) on entering the first `with`
block, the muxed-output temporary on entering the third `with` block; the
`os.unlink` cleanup loop is the last step of the `try` body and the `except`
clause only logs and re-raises. -/

inductive TempFile
  | video
  | audio
  | final
deriving DecidableEq, Repr

structure MergeOps where
  downloadVideo : Except String Unit
  downloadAudio : Except String Unit
  openVideoClip : Except String Unit
  openAudioClip : Except String Unit
  writeVideofile : Except String Unit
  uploadFinal : Except String Unit

def merge_video_and_audio (bucket uuidHex : String) (ops : MergeOps) :
    Except String String × List TempFile :=
  match ops.downloadVideo with
  | .error e => (.error ("Failed to merge video and audio: " ++ e), [.video, .audio])
  | .ok _ =>
  match ops.downloadAudio with
  | .error e => (.error ("Failed to merge video and audio: " ++ e), [.video, .audio])
  | .ok _ =>
  match ops.openVideoClip with
  | .error e => (.error ("Failed to merge video and audio: " ++ e), [.video, .audio])
  | .ok _ =>
  match ops.openAudioClip with
  | .error e => (.error ("Failed to merge video and audio: " ++ e), [.video, .audio])
  | .ok _ =>
  match ops.writeVideofile with
  | .error e => (.error ("Failed to merge video and audio: " ++ e), [.video, .audio, .final])
  | .ok _ =>
  match ops.uploadFinal with
  | .error e => (.error ("Failed to merge video and audio: " ++ e), [.video, .audio, .final])
  | .ok _ =>
  (.ok ("s3://" ++ bucket ++ "/final_videos/ad_" ++ uuidHex ++ ".mp4"), [])

/-! ### Video job runner poll loop

Models the poll loop of `create_video_with_nova_reel`
(enhanced_tools.py lines 253-296): `while elapsed_time < max_wait_time`
(600 s) query `get_async_invoke`; on `Completed` list the output prefix and
return the first object key ending in ".mp4" (or raise the integrity error);
on `Failed` raise with the endpoint's failure message (default
"Unknown error"); on any other status sleep 15 s, add 15 to the elapsed
counter and loop; when the guard fails raise the timeout error.  The status
query is an oracle `poll i` giving the outcome of the i-th call; a raised
status-query exception is not caught inside the loop, so it propagates
(`pollException`).  The four error constructors mirror the four textually
distinct raise sites of the source.  The loop runs at most 40 iterations
(elapsed 0, 15, ..., 585); the structural fuel 41 is never exhausted before
the elapsed-time guard fires. -/

structure AsyncInvokeResponse where
  status : String
  failureMessage : Option String
deriving DecidableEq, Repr

inductive VideoErr
  | pollException (e : String)
  | jobFailed (failureMessage : String)
  | videoFileNotFound
  | timedOut (maxWaitTime : ℕ)
deriving DecidableEq, Repr

def findMp4 (listing : List String) : Option String :=
  listing.find? (fun key => List.isSuffixOf ".mp4".data key.data)

def nonterminalResponse (r : AsyncInvokeResponse) : Prop :=
  r.status ≠ "Completed" ∧ r.status ≠ "Failed"

def pollLoopAux (poll : ℕ → Except String AsyncInvokeResponse)
    (listing : List String) (bucket : String) :
    ℕ → ℕ → ℕ → Except VideoErr String
  | _, _, 0 => .error (.timedOut 600)
  | i, elapsed, fuel + 1 =>
    if 600 ≤ elapsed then .error (.timedOut 600)
    else
      match poll i with
      | .error e => .error (.pollException e)
      | .ok r =>
        if r.status = "Completed" then
          match findMp4 listing with
          | some key => .ok ("s3://" ++ bucket ++ "/" ++ key)
          | none => .error .videoFileNotFound
        else if r.status = "Failed" then
          .error (.jobFailed (r.failureMessage.getD "Unknown error"))
        else
          pollLoopAux poll listing bucket (i + 1) (elapsed + 15) fuel

def create_video_poll (poll : ℕ → Except String AsyncInvokeResponse)
    (listing : List String) (bucket : String) : Except VideoErr String :=
  pollLoopAux poll listing bucket 0 0 41

theorem pollLoopAux_skip (poll : ℕ → Except String AsyncInvokeResponse)
    (listing : List String) (bucket : String) :
    ∀ (k i elapsed fuel : ℕ),
      elapsed + 15 * k < 600 → k ≤ fuel →
      (∀ j, j < k → ∃ r, poll (i + j) = .ok r ∧ nonterminalResponse r) →
      pollLoopAux poll listing bucket i elapsed fuel =
        pollLoopAux poll listing bucket (i + k) (elapsed + 15 * k) (fuel - k) := by
  intro k
  induction k with
  | zero => intro i elapsed fuel _ _ _; simp
  | succ k ih =>
    intro i elapsed fuel hel hfuel hnt
    obtain ⟨f, rfl⟩ : ∃ f, fuel = f + 1 := ⟨fuel - 1, by omega⟩
    obtain ⟨r, hr, hnt0⟩ := hnt 0 (Nat.succ_pos k)
    rw [Nat.add_zero] at hr
    have hguard : ¬ 600 ≤ elapsed := by omega
    have step : pollLoopAux poll listing bucket i elapsed (f + 1) =
        pollLoopAux poll listing bucket (i + 1) (elapsed + 15) f := by
      simp [pollLoopAux, hguard, hr, hnt0.1, hnt0.2]
    rw [step]
    have hnt' : ∀ j, j < k →
        ∃ r, poll (i + 1 + j) = .ok r ∧ nonterminalResponse r := by
      intro j hj
      have h := hnt (j + 1) (by omega)
      have e : i + (j + 1) = i + 1 + j := by omega
      rwa [e] at h
    have hrec := ih (i + 1) (elapsed + 15) f (by omega) (by omega) hnt'
    rw [hrec]
    have e1 : i + 1 + k = i + (k + 1) := by omega
    have e2 : elapsed + 15 + 15 * k = elapsed + 15 * (k + 1) := by omega
    have e3 : f - k = f + 1 - (k + 1) := by omega
    rw [e1, e2, e3]

theorem pollLoopAux_timeout (poll : ℕ → Except String AsyncInvokeResponse)
    (listing : List String) (bucket : String)
    (h : ∀ i, ∃ r, poll i = .ok r ∧ nonterminalResponse r) :
    ∀ fuel i elapsed,
      pollLoopAux poll listing bucket i elapsed fuel = .error (.timedOut 600) := by
  intro fuel
  induction fuel with
  | zero => intro i elapsed; rfl
  | succ f ih =>
    intro i elapsed
    by_cases hg : 600 ≤ elapsed
    · simp [pollLoopAux, hg]
    · obtain ⟨r, hr, h1, h2⟩ := h i
      simp [pollLoopAux, hg, hr, h1, h2, ih]

/-- C6: on a status sequence that never reaches a terminal status (and whose
status queries themselves never raise), the poll loop, stepping its elapsed
counter by the fixed 15-second interval, stops at the fixed 600-second
ceiling with the timeout error, which is a different error from any
explicit Failed-status error; the loop issues no cancellation call (the
embedding has no such action: a job is only ever queried). -/
theorem poll_timeout_at_ceiling (poll : ℕ → Except String AsyncInvokeResponse)
    (listing : List String) (bucket : String)
    (h : ∀ i, ∃ r, poll i = .ok r ∧ nonterminalResponse r) :
    create_video_poll poll listing bucket = .error (.timedOut 600) ∧
      ∀ m, VideoErr.timedOut 600 ≠ VideoErr.jobFailed m := by
  refine ⟨pollLoopAux_timeout poll listing bucket h 41 0 0, ?_⟩
  intro m hcontra
  cases hcontra

/-- Witness for C6: a status oracle answering InProgress forever yields the
timeout error. -/
theorem poll_timeout_at_ceiling_witness :
    create_video_poll (fun _ => .ok ⟨"InProgress", none⟩) [] "bkt" =
      .error (.timedOut 600) :=
  (poll_timeout_at_ceiling (fun _ => .ok ⟨"InProgress", none⟩) [] "bkt"
    (fun _ => ⟨⟨"InProgress", none⟩, rfl, by decide, by decide⟩)).1

/-- C7: if the k-th status query (after k non-terminal answers, within the
ceiling) reports Completed, then: with no listed object key ending in ".mp4"
the runner raises the integrity error, and with such a key it returns the
locator of the first matching object. -/
theorem poll_completed_integrity (poll : ℕ → Except String AsyncInvokeResponse)
    (listing : List String) (bucket : String) (k : ℕ) (hk : 15 * k < 600)
    (hpre : ∀ j, j < k → ∃ r, poll j = .ok r ∧ nonterminalResponse r)
    (hc : ∃ r, poll k = .ok r ∧ r.status = "Completed") :
    (findMp4 listing = none →
        create_video_poll poll listing bucket = .error .videoFileNotFound) ∧
      ∀ key, findMp4 listing = some key →
        create_video_poll poll listing bucket =
          .ok ("s3://" ++ bucket ++ "/" ++ key) := by
  obtain ⟨r, hr, hst⟩ := hc
  have hpre' : ∀ j, j < k → ∃ r, poll (0 + j) = .ok r ∧ nonterminalResponse r := by
    intro j hj
    have h := hpre j hj
    rwa [Nat.zero_add]
  have hskip := pollLoopAux_skip poll listing bucket k 0 0 41
    (by omega) (by omega) hpre'
  rw [Nat.zero_add, Nat.zero_add] at hskip
  obtain ⟨m, hm⟩ : ∃ m, 41 - k = m + 1 := ⟨40 - k, by omega⟩
  have hguard : ¬ 600 ≤ 15 * k := by omega
  constructor
  · intro hnone
    rw [create_video_poll, hskip, hm]
    simp [pollLoopAux, hguard, hr, hst, hnone]
  · intro key hkey
    rw [create_video_poll, hskip, hm]
    simp [pollLoopAux, hguard, hr, hst, hkey]

/-- Witness for C7: a job that reports Completed on the first query with a
single listed ".mp4" object returns that object's locator. -/
theorem poll_completed_integrity_witness :
    create_video_poll (fun _ => .ok ⟨"Completed", none⟩)
        ["generated_videos/video_u/output.mp4"] "bkt" =
      .ok "s3://bkt/generated_videos/video_u/output.mp4" :=
  (poll_completed_integrity (fun _ => .ok ⟨"Completed", none⟩)
      ["generated_videos/video_u/output.mp4"] "bkt" 0 (by omega)
      (fun j hj => absurd hj (by omega))
      ⟨⟨"Completed", none⟩, rfl, rfl⟩).2
    "generated_videos/video_u/output.mp4" rfl

/-- C2 counterexample: a single transient status-query failure on the very
first poll call aborts the whole run with a fatal error, even though the job
would have completed on the next query; with no such transient failure the
identical job succeeds.  A poll-call error is therefore not retried. -/
theorem poll_error_not_retried_counterexample :
    create_video_poll
        (fun i => if i = 0 then .error "connection reset"
          else .ok ⟨"Completed", none⟩)
        ["v/output.mp4"] "bkt" =
      .error (.pollException "connection reset") ∧
    create_video_poll (fun _ => .ok ⟨"Completed", none⟩)
        ["v/output.mp4"] "bkt" =
      .ok "s3://bkt/v/output.mp4" :=
  ⟨rfl, rfl⟩

/-- C2 amended: an error raised by an individual status query (after any
number of non-terminal answers, within the ceiling) is not caught inside the
poll loop: it propagates and aborts the invocation as a fatal error rather
than being retried. -/
theorem poll_error_aborts (poll : ℕ → Except String AsyncInvokeResponse)
    (listing : List String) (bucket : String) (k : ℕ) (e : String)
    (hk : 15 * k < 600)
    (hpre : ∀ j, j < k → ∃ r, poll j = .ok r ∧ nonterminalResponse r)
    (he : poll k = .error e) :
    create_video_poll poll listing bucket = .error (.pollException e) := by
  have hpre' : ∀ j, j < k → ∃ r, poll (0 + j) = .ok r ∧ nonterminalResponse r := by
    intro j hj
    have h := hpre j hj
    rwa [Nat.zero_add]
  have hskip := pollLoopAux_skip poll listing bucket k 0 0 41
    (by omega) (by omega) hpre'
  rw [Nat.zero_add, Nat.zero_add] at hskip
  obtain ⟨m, hm⟩ : ∃ m, 41 - k = m + 1 := ⟨40 - k, by omega⟩
  have hguard : ¬ 600 ≤ 15 * k := by omega
  rw [create_video_poll, hskip, hm]
  simp [pollLoopAux, hguard, he]

/-- Witness for the amended C2: two InProgress answers followed by a raising
third query abort the run with that error. -/
theorem poll_error_aborts_witness :
    create_video_poll
        (fun i => if i = 2 then .error "throttled"
          else .ok ⟨"InProgress", none⟩) [] "bkt" =
      .error (.pollException "throttled") := by
  refine poll_error_aborts _ [] "bkt" 2 "throttled" (by omega) ?_ rfl
  intro j hj
  refine ⟨⟨"InProgress", none⟩, ?_, by decide, by decide⟩
  have hne : j ≠ 2 := by omega
  simp [hne]

/-- C1: the cleanup-on-every-path claim fails in the code: when opening the
downloaded video raises (for instance the downloaded object is not a valid
mp4), the invocation raises with the downloaded video and audio temporaries
still on disk; the unlink loop runs only on the success path, where all
temporaries are indeed removed. -/
theorem merge_cleanup_only_on_success :
    (merge_video_and_audio "bkt" "u"
        ⟨.ok (), .ok (), .error "not a valid mp4", .ok (), .ok (), .ok ()⟩).2 =
      [.video, .audio] ∧
    (merge_video_and_audio "bkt" "u"
        ⟨.ok (), .ok (), .ok (), .ok (), .ok (), .ok ()⟩).2 = [] :=
  ⟨rfl, rfl⟩

/-! ### Strategy generator

Models `generate_content_strategy` (enhanced_tools.py lines 64-123).  The
bedrock call's outcome (raised exception, or the response's content text) and
`json.loads` (a parsed string-valued dict, or `none` for a raise / non-dict)
are oracles; the embedded code is the extraction of the substring between the
first brace and the last brace (Python `find`/`rfind`/slicing, including the
-1-on-absence and negative-index semantics), the presence check of the three
required keys, and the fallback template used on every exception path. -/

def lbrace : Char := Char.ofNat 123

def rbrace : Char := Char.ofNat 125

def pyFindAux (c : Char) : List Char → Option ℕ
  | [] => none
  | x :: xs => if x = c then some 0 else (pyFindAux c xs).map (· + 1)

def pyFind (s : List Char) (c : Char) : Int :=
  match pyFindAux c s with
  | some i => (i : Int)
  | none => -1

def pyRfind (s : List Char) (c : Char) : Int :=
  match pyFindAux c s.reverse with
  | some i => (s.length : Int) - 1 - (i : Int)
  | none => -1

def pySliceIdx (n : ℕ) (i : Int) : ℕ :=
  if i < 0 then (i + n).toNat else min i.toNat n

def pySlice (s : List Char) (i j : Int) : List Char :=
  (s.take (pySliceIdx s.length j)).drop (pySliceIdx s.length i)

def extract_json (content : List Char) : List Char :=
  pySlice content (pyFind content lbrace) (pyRfind content rbrace + 1)

abbrev StrategyDict := List (String × String)

def hasKey (d : StrategyDict) (k : String) : Bool :=
  d.any (fun p => p.1 == k)

def getVal (d : StrategyDict) (k : String) : Option String :=
  (d.find? (fun p => p.1 == k)).map (fun p => p.2)

def required_keys : List String :=
  ["image_prompt", "video_prompt", "audio_script"]

def fallback_strategy (ad : String) : StrategyDict :=
  [("image_prompt",
      "Professional commercial photograph of " ++ ad ++
        ", high quality, 1280x720, cinematic lighting, marketing style"),
    ("video_prompt",
      "Create a 6-second commercial video about " ++ ad ++
        ", professional quality, smooth camera movement, engaging visuals"),
    ("audio_script",
      "Discover the amazing " ++ ad ++ ". Experience the difference today!")]

def generate_content_strategy (ad : String)
    (bedrockContent : Except String (List Char))
    (jsonLoads : List Char → Option StrategyDict) : StrategyDict :=
  match bedrockContent with
  | .error _ => fallback_strategy ad
  | .ok content =>
    match jsonLoads (extract_json content) with
    | none => fallback_strategy ad
    | some strategy =>
      if required_keys.all (fun k => hasKey strategy k) then strategy
      else fallback_strategy ad

theorem append3_ne_empty (pre mid suf : String) (h : pre.length ≠ 0) :
    pre ++ mid ++ suf ≠ "" := by
  intro hc
  have hl := congrArg String.length hc
  rw [String.length_append, String.length_append] at hl
  simp only [String.length_empty] at hl
  omega

/-- C4 counterexample: when the generation call succeeds and the model's
response is the well-formed JSON object with image_prompt set to the empty
string, the returned strategy contains that empty field: the validation
checks only that the three keys are present, not that their values are
non-empty. -/
theorem strategy_empty_field_counterexample :
    getVal
        (generate_content_strategy "car"
          (.ok ("\x7b\"image_prompt\": \"\", \"video_prompt\": \"v\", \"audio_script\": \"a\"\x7d".data))
          (fun s =>
            if s = "\x7b\"image_prompt\": \"\", \"video_prompt\": \"v\", \"audio_script\": \"a\"\x7d".data
            then some [("image_prompt", ""), ("video_prompt", "v"), ("audio_script", "a")]
            else none))
        "image_prompt" = some "" := by
  rfl

/-- C4 amended: for every ad description and every outcome of the generation
call and of JSON parsing, the returned strategy has all three required keys
present and the function never raises (it is total, returning the
deterministic fallback on every failure path); the fallback's three values
are always non-empty, but a successfully parsed strategy is validated for key
presence only, so its values need not be non-empty. -/
theorem strategy_always_complete (ad : String)
    (bedrockContent : Except String (List Char))
    (jsonLoads : List Char → Option StrategyDict) :
    (∀ k, k ∈ required_keys →
        hasKey (generate_content_strategy ad bedrockContent jsonLoads) k = true) ∧
      ∀ p, p ∈ fallback_strategy ad → p.2 ≠ "" := by
  have hfb : ∀ k, k ∈ required_keys → hasKey (fallback_strategy ad) k = true := by
    intro k hk
    fin_cases hk <;> rfl
  constructor
  · intro k hk
    cases bedrockContent with
    | error e => exact hfb k hk
    | ok content =>
      cases hpp : jsonLoads (extract_json content) with
      | none =>
        simp only [generate_content_strategy, hpp]
        exact hfb k hk
      | some strategy =>
        simp only [generate_content_strategy, hpp]
        by_cases hv : required_keys.all (fun k => hasKey strategy k) = true
        · simp only [hv, if_true]
          exact List.all_eq_true.mp hv k hk
        · rw [if_neg hv]
          exact hfb k hk
  · intro p hp
    simp only [fallback_strategy, List.mem_cons, List.not_mem_nil, or_false] at hp
    rcases hp with rfl | rfl | rfl
    · exact append3_ne_empty _ _ _ (by decide)
    · exact append3_ne_empty _ _ _ (by decide)
    · exact append3_ne_empty _ _ _ (by decide)

/-- Witness for the amended C4: with the generation call failing outright,
the returned strategy still has the audio_script key. -/
theorem strategy_always_complete_witness :
    hasKey
        (generate_content_strategy "solar lamp" (.error "service unavailable")
          (fun _ => none))
        "audio_script" = true :=
  (strategy_always_complete "solar lamp" (.error "service unavailable")
      (fun _ => none)).1
    "audio_script" (by decide)

/-! ### Pipeline drivers

Two driver variants sequence the five stages.

`create_video_advertisement` (enhanced_agent_config.py lines 41-136)
accumulates a results dict entry by entry inside one try block; on any stage
exception the except clause appends an error entry to the dict built so far
and returns it.  The agent's textual responses (`agentResp i` for the i-th
agent call) and each direct tool call's outcome are oracles; the strategy
tool is total (see `generate_content_strategy`).

`create_video_ad` (streamlit_agent.py lines 34-115, VideoAdAgent) calls each
tool (directly when the agent's response yields no parseable s3 path,
`agentPath i = none`) and only builds its result dict after all five stages;
a stage exception propagates out of the method. -/

inductive RVal
  | s (v : String)
  | dict (d : StrategyDict)
deriving DecidableEq, Repr

def create_video_advertisement (agentResp : ℕ → String)
    (strategy_data : StrategyDict)
    (image video audio mergeStep : Except String String) :
    List (String × RVal) :=
  let r := [("strategy", RVal.s (agentResp 0)),
    ("strategy_data", RVal.dict strategy_data),
    ("image", RVal.s (agentResp 1))]
  match image with
  | .error e => r ++ [("error", RVal.s e)]
  | .ok image_s3_path =>
  let r := r ++ [("image_s3_path", RVal.s image_s3_path),
    ("video", RVal.s (agentResp 2))]
  match video with
  | .error e => r ++ [("error", RVal.s e)]
  | .ok video_s3_path =>
  let r := r ++ [("video_s3_path", RVal.s video_s3_path),
    ("audio", RVal.s (agentResp 3))]
  match audio with
  | .error e => r ++ [("error", RVal.s e)]
  | .ok audio_s3_path =>
  let r := r ++ [("audio_s3_path", RVal.s audio_s3_path),
    ("merge", RVal.s (agentResp 4))]
  match mergeStep with
  | .error e => r ++ [("error", RVal.s e)]
  | .ok final_s3_path =>
  r ++ [("final_video_s3_path", RVal.s final_s3_path)]

structure AdResult where
  strategy : StrategyDict
  image_path : String
  video_path : String
  audio_path : String
  final_path : String
deriving DecidableEq, Repr

def create_video_ad (strategy_data : StrategyDict)
    (agentPath : ℕ → Option String)
    (image video audio mergeStep : Except String String) :
    Except String AdResult := do
  let image_s3_path ← match agentPath 0 with
    | some p => Except.ok p
    | none => image
  let video_s3_path ← match agentPath 1 with
    | some p => Except.ok p
    | none => video
  let audio_s3_path ← match agentPath 2 with
    | some p => Except.ok p
    | none => audio
  let final_s3_path ← match agentPath 3 with
    | some p => Except.ok p
    | none => mergeStep
  Except.ok ⟨strategy_data, image_s3_path, video_s3_path, audio_s3_path, final_s3_path⟩

/-- C8 counterexample: in the VideoAdAgent driver, when the voice synthesizer
stage raises (with the agent's responses yielding no parseable path, so every
stage runs via the direct tool call), the invocation propagates the exception
and returns no result at all: the strategy and the image and video references
already produced are not in any returned result, contradicting the claim
that partial results are always returned. -/
theorem driver_discards_on_failure_counterexample :
    create_video_ad [("image_prompt", "p"), ("video_prompt", "q"), ("audio_script", "r")]
        (fun _ => none)
        (.ok "s3://bkt/generated_images/ref_image_a.png")
        (.ok "s3://bkt/generated_videos/video_b/output.mp4")
        (.error "Failed to create voiceover: ServiceError")
        (.ok "s3://bkt/final_videos/ad_c.mp4") =
      .error "Failed to create voiceover: ServiceError" :=
  rfl

/-- C8 amended: the enhanced_agent_config driver preserves partial results:
when the voice synthesizer stage raises after the image and video stages
succeeded, the returned dict still holds the strategy and the image and video
references, holds no audio or final reference, and reports the error; the
VideoAdAgent driver instead propagates the exception and returns nothing. -/
theorem driver_preserves_prior_stages (agentResp : ℕ → String)
    (strategy_data : StrategyDict) (img vid e : String)
    (mergeStep : Except String String) :
    (create_video_advertisement agentResp strategy_data
          (.ok img) (.ok vid) (.error e) mergeStep).lookup "strategy_data" =
        some (RVal.dict strategy_data) ∧
      (create_video_advertisement agentResp strategy_data
          (.ok img) (.ok vid) (.error e) mergeStep).lookup "image_s3_path" =
        some (RVal.s img) ∧
      (create_video_advertisement agentResp strategy_data
          (.ok img) (.ok vid) (.error e) mergeStep).lookup "video_s3_path" =
        some (RVal.s vid) ∧
      (create_video_advertisement agentResp strategy_data
          (.ok img) (.ok vid) (.error e) mergeStep).lookup "audio_s3_path" =
        none ∧
      (create_video_advertisement agentResp strategy_data
          (.ok img) (.ok vid) (.error e) mergeStep).lookup "final_video_s3_path" =
        none ∧
      (create_video_advertisement agentResp strategy_data
          (.ok img) (.ok vid) (.error e) mergeStep).lookup "error" =
        some (RVal.s e) :=
  ⟨rfl, rfl, rfl, rfl, rfl, rfl⟩

/-! ### Storage key generation

Keys written by the enhanced_tools pipeline, one fresh `uuid.uuid4().hex`
per artifact: the image key (line 138), the voiceover key (line 319) and the
final merged-video key (line 393).  (The generated video object itself is
written by the remote service under the run's uuid-named output prefix, not
by this code.)  The auto_video_ad variant instead derives its audio key
(lines 106-107) and its final key (lines 156-157) from
`datetime.now().strftime` with one-second granularity; its uuid draw is used
only for local temp filenames. -/

def imageKey (u : List Char) : List Char :=
  "generated_images/ref_image_".data ++ u ++ ".png".data

def audioKey (u : List Char) : List Char :=
  "generated_audio/voiceover_".data ++ u ++ ".mp3".data

def finalKey (u : List Char) : List Char :=
  "final_videos/ad_".data ++ u ++ ".mp4".data

def enhancedRunKeys (u1 u2 u3 : List Char) : List (List Char) :=
  [imageKey u1, audioKey u2, finalKey u3]

def autoAudioKey (timestamp : List Char) : List Char :=
  "audio/ad_audio_".data ++ timestamp ++ ".mp3".data

def autoFinalKey (timestamp : List Char) : List Char :=
  "final/ad_final_".data ++ timestamp ++ ".mp4".data

structure AutoRun where
  uniqueId : List Char
  audioTimestamp : List Char
  finalTimestamp : List Char
deriving DecidableEq, Repr

def autoRunKeys (r : AutoRun) : List (List Char) :=
  [autoAudioKey r.audioTimestamp, autoFinalKey r.finalTimestamp]

theorem middle_cancel {p s u v : List Char} (h : p ++ u ++ s = p ++ v ++ s) :
    u = v := by
  rw [List.append_assoc, List.append_assoc] at h
  exact List.append_cancel_right (List.append_cancel_left h)

theorem ne_of_getElem?_ne {l₁ l₂ : List Char} (i : ℕ)
    (h : l₁[i]? ≠ l₂[i]?) : l₁ ≠ l₂ := by
  intro hc
  exact h (by rw [hc])

theorem imageKey_char_ten (u : List Char) : (imageKey u)[10]? = some 'i' := rfl

theorem audioKey_char_ten (u : List Char) : (audioKey u)[10]? = some 'a' := rfl

theorem imageKey_char_zero (u : List Char) : (imageKey u)[0]? = some 'g' := rfl

theorem audioKey_char_zero (u : List Char) : (audioKey u)[0]? = some 'g' := rfl

theorem finalKey_char_zero (u : List Char) : (finalKey u)[0]? = some 'f' := rfl

/-- C9 counterexample: two distinct simultaneous auto_video_ad runs (distinct
uuid draws, same one-second voiceover timestamp) write their voiceover under
the same storage key, so their written key sets are not disjoint. -/
theorem simultaneous_runs_key_collision :
    (⟨"aaaaaaaa".data, "20260101_120000".data, "20260101_120005".data⟩ : AutoRun) ≠
        ⟨"bbbbbbbb".data, "20260101_120000".data, "20260101_120006".data⟩ ∧
      autoAudioKey "20260101_120000".data ∈
        autoRunKeys ⟨"aaaaaaaa".data, "20260101_120000".data, "20260101_120005".data⟩ ∧
      autoAudioKey "20260101_120000".data ∈
        autoRunKeys ⟨"bbbbbbbb".data, "20260101_120000".data, "20260101_120006".data⟩ := by
  refine ⟨?_, by simp [autoRunKeys], by simp [autoRunKeys]⟩
  intro h
  cases h

/-- C9 amended: for the enhanced_tools pipeline the guarantee holds: provided
the uuid4 hex draws of two runs are pairwise distinct (the high-entropy
uniqueness the generator supplies), the two runs' written key sets are
disjoint; the auto_video_ad variant's timestamp-derived audio and final keys
do not carry this guarantee. -/
theorem enhanced_run_keys_disjoint (a1 a2 a3 b1 b2 b3 : List Char)
    (h : ∀ x, x ∈ [a1, a2, a3] → ∀ y, y ∈ [b1, b2, b3] → x ≠ y) :
    ∀ k₁, k₁ ∈ enhancedRunKeys a1 a2 a3 →
      ∀ k₂, k₂ ∈ enhancedRunKeys b1 b2 b3 → k₁ ≠ k₂ := by
  intro k₁ hk₁ k₂ hk₂
  simp only [enhancedRunKeys, List.mem_cons, List.not_mem_nil, or_false] at hk₁ hk₂
  have hab : ∀ x, x ∈ [a1, a2, a3] → ∀ y, y ∈ [b1, b2, b3] →
      ∀ p s : List Char, p ++ x ++ s ≠ p ++ y ++ s := by
    intro x hx y hy p s hc
    exact h x hx y hy (middle_cancel hc)
  rcases hk₁ with rfl | rfl | rfl <;> rcases hk₂ with rfl | rfl | rfl
  · exact hab a1 (by simp) b1 (by simp) _ _
  · exact ne_of_getElem?_ne 10
      (by rw [imageKey_char_ten, audioKey_char_ten]; decide)
  · exact ne_of_getElem?_ne 0
      (by rw [imageKey_char_zero, finalKey_char_zero]; decide)
  · exact ne_of_getElem?_ne 10
      (by rw [imageKey_char_ten, audioKey_char_ten]; decide)
  · exact hab a2 (by simp) b2 (by simp) _ _
  · exact ne_of_getElem?_ne 0
      (by rw [audioKey_char_zero, finalKey_char_zero]; decide)
  · exact ne_of_getElem?_ne 0
      (by rw [imageKey_char_zero, finalKey_char_zero]; decide)
  · exact ne_of_getElem?_ne 0
      (by rw [audioKey_char_zero, finalKey_char_zero]; decide)
  · exact hab a3 (by simp) b3 (by simp) _ _

/-- Witness for the amended C9: two runs with distinct uuid draws never share
the image key. -/
theorem enhanced_run_keys_disjoint_witness :
    imageKey "a1".data ≠ imageKey "b1".data :=
  enhanced_run_keys_disjoint "a1".data "a2".data "a3".data
    "b1".data "b2".data "b3".data (by decide)
    (imageKey "a1".data) (by simp [enhancedRunKeys])
    (imageKey "b1".data) (by simp [enhancedRunKeys])

end VideoAd
